import Mathlib

/-!
Verification of the KontaFlow backend "Economic Groups" slice: a shallow
embedding of the Zod validation schemas (`grupos.schema.ts`), the error
taxonomy (`lib/errors.ts`), the repository (`grupos.repository.ts`) and the
service (`grupos.service.ts`), together with theorems about the behaviour
of the create / read / update / delete pipeline.

The database is modelled as explicit lists of rows; Prisma calls become
pure functions on that state.  Stateful operations return the new state
explicitly, so "the state is unchanged on rejection" is expressible.
-/

namespace KontaFlow

/-- Decidable equality on `Except`, used to evaluate operation outcomes
on concrete inputs. -/
instance {ε α : Type} [DecidableEq ε] [DecidableEq α] : DecidableEq (Except ε α) := fun x y =>
  match x, y with
  | .ok a, .ok b => decidable_of_iff (a = b) (by simp)
  | .error a, .error b => decidable_of_iff (a = b) (by simp)
  | .ok _, .error _ => isFalse (by simp)
  | .error _, .ok _ => isFalse (by simp)

/-! ## Validation schemas (`src/validators/grupos.schema.ts`) -/

/-- `PAISES_VALIDOS` from `grupos.schema.ts`. -/
def PAISES_VALIDOS : List String := ["UY", "AR", "BR", "CL", "CO", "PE", "MX", "US", "ES"]

/-- `MONEDAS_VALIDAS` from `grupos.schema.ts`. -/
def MONEDAS_VALIDAS : List String := ["UYU", "USD", "ARS", "BRL", "CLP", "COP", "PEN", "MXN", "EUR"]

/-- The output type of `CreateGrupoSchema.parse` (`CreateGrupoDto`).
`rutControlador` is optional and may be the literal empty string. -/
structure CreateGrupoDto where
  nombre : String
  rutControlador : Option String
  paisPrincipal : String
  monedaBase : String
deriving Repr, DecidableEq

/-- The output type of `UpdateGrupoSchema.parse` (`UpdateGrupoDto`):
every field optional, plus an optional `activo` boolean. -/
structure UpdateGrupoDto where
  nombre : Option String := none
  rutControlador : Option String := none
  paisPrincipal : Option String := none
  monedaBase : Option String := none
  activo : Option Bool := none
deriving Repr, DecidableEq

/-- Raw (pre-validation) input to `CreateGrupoSchema.parse`, with the four
fields present as strings (`rutControlador` possibly absent). -/
structure CreateGrupoInput where
  nombre : String
  rutControlador : Option String
  paisPrincipal : String
  monedaBase : String
deriving Repr, DecidableEq

/-- JavaScript `String.prototype.trim` (also Zod's `.trim()` transform):
drop whitespace from both ends, modelled structurally on the character
list of the string. -/
def trimChars (l : List Char) : List Char :=
  ((l.dropWhile Char.isWhitespace).reverse.dropWhile Char.isWhitespace).reverse

/-- `trim` on strings. -/
def strTrim (s : String) : String := ⟨trimChars s.data⟩

/-- `toLowerCase`, modelled structurally. -/
def strToLower (s : String) : String := ⟨s.data.map Char.toLower⟩

/-- The regex `^[0-9]{12}$` on `rutControlador`. -/
def rutFormatOk (s : String) : Bool :=
  s.length = 12 && s.data.all Char.isDigit

/-- Zod issues produced by `CreateGrupoSchema.parse`, as (path, message)
pairs, mirroring the order in which Zod reports them (object fields in
declaration order; the string checks `min` then `max` run in order and the
`.trim()` transform runs after both, so the length bounds apply to the
UNTRIMMED value). -/
def createGrupoIssues (inp : CreateGrupoInput) : List (String × String) :=
  (if inp.nombre.length < 3 then
      [("nombre", "El nombre debe tener al menos 3 caracteres")] else []) ++
  (if 200 < inp.nombre.length then
      [("nombre", "El nombre no puede exceder 200 caracteres")] else []) ++
  (match inp.rutControlador with
   | none => []
   | some s =>
      if rutFormatOk s || s = "" then []
      else [("rutControlador", "El RUT debe tener 12 dígitos")]) ++
  (if inp.paisPrincipal ∈ PAISES_VALIDOS then [] else
      [("paisPrincipal", "País inválido")]) ++
  (if inp.monedaBase ∈ MONEDAS_VALIDAS then [] else
      [("monedaBase", "Moneda inválida")])

/-- `validateCreateGrupo` / `CreateGrupoSchema.parse`: collects all issues;
on success the `.trim()` transform is applied to `nombre`. -/
def validateCreateGrupo (inp : CreateGrupoInput) :
    Except (List (String × String)) CreateGrupoDto :=
  match createGrupoIssues inp with
  | [] => .ok { nombre := strTrim inp.nombre
                rutControlador := inp.rutControlador
                paisPrincipal := inp.paisPrincipal
                monedaBase := inp.monedaBase }
  | issues => .error issues

/-! ## Error taxonomy (`src/lib/errors.ts`) -/

/-- The `AppError` hierarchy: each constructor is one concrete subclass,
carrying the extra data that subclass attaches. -/
inductive AppError where
  /-- `ValidationError` (400): message plus field→message details. -/
  | validation (message : String) (details : List (String × String))
  /-- `UnauthorizedError` (401). -/
  | unauthorized (message : String)
  /-- `ForbiddenError` (403). -/
  | forbidden (message : String)
  /-- `NotFoundError` (404): resource name and optional id. -/
  | notFound (resource : String) (id : Option Nat)
  /-- `ConflictError` (409): message and optional offending field. -/
  | conflict (message : String) (field : Option String)
  /-- `BusinessRuleError` (422): message and optional rule identifier. -/
  | businessRule (message : String) (rule : Option String)
deriving Repr, DecidableEq

/-- `statusCode` assigned by each `AppError` subclass constructor. -/
def AppError.statusCode : AppError → Nat
  | .validation _ _ => 400
  | .unauthorized _ => 401
  | .forbidden _ => 403
  | .notFound _ _ => 404
  | .conflict _ _ => 409
  | .businessRule _ _ => 422

/-- `code` assigned by each `AppError` subclass constructor. -/
def AppError.code : AppError → String
  | .validation _ _ => "VALIDATION_ERROR"
  | .unauthorized _ => "UNAUTHORIZED"
  | .forbidden _ => "FORBIDDEN"
  | .notFound _ _ => "NOT_FOUND"
  | .conflict _ _ => "CONFLICT"
  | .businessRule _ _ => "BUSINESS_RULE_VIOLATION"

/-- `handleZodError`: folds the per-field issue list into the
`ValidationError` details mapping (path segments joined by `.`; here every
path is a single field name). -/
def handleZodError (issues : List (String × String)) : AppError :=
  .validation "Error de validación en los datos enviados" issues

/-- Field names carried by a `ValidationError`'s details. -/
def AppError.detailFields : AppError → List String
  | .validation _ details => details.map Prod.fst
  | _ => []

/-! ## Database state -/

/-- A `grupoEconomico` row (fields used by this slice).
`fechaCreacion` is a logical timestamp; `rutControlador = none` is SQL NULL. -/
structure Grupo where
  id : Nat
  nombre : String
  rutControlador : Option String
  paisPrincipal : String
  monedaBase : String
  activo : Bool
  fechaCreacion : Nat
deriving Repr, DecidableEq

/-- An `empresa` row (fields this slice reads). -/
structure Empresa where
  id : Nat
  grupoEconomicoId : Nat
  nombre : String
  activa : Bool
deriving Repr, DecidableEq

/-- A `usuarioGrupo` membership row. -/
structure UsuarioGrupo where
  usuarioId : Nat
  grupoEconomicoId : Nat
  rol : String
deriving Repr, DecidableEq

/-- A `configuracionContable` row. -/
structure ConfiguracionContable where
  grupoEconomicoId : Nat
  permitirAsientosEnPeriodoCerrado : Bool
  requiereAprobacionGlobal : Bool
  montoMinimoAprobacion : ℚ
  permitirAsientosDescuadrados : Bool
  decimalesMonto : Nat
  decimalesTipoCambio : Nat
deriving Repr, DecidableEq

/-- A `planDeCuentas` row. -/
structure PlanDeCuentas where
  grupoEconomicoId : Nat
  nombre : String
  descripcion : String
deriving Repr, DecidableEq

/-- The database state visible to this slice.  `nextId` is the
autoincrement counter for `grupoEconomico.id`; `now` a logical clock
stamped into `fechaCreacion`. -/
structure DB where
  grupos : List Grupo
  empresas : List Empresa
  usuariosGrupos : List UsuarioGrupo
  configuraciones : List ConfiguracionContable
  planesDeCuentas : List PlanDeCuentas
  nextId : Nat
  now : Nat
deriving Repr, DecidableEq

/-- The empty database (fresh autoincrement at 1). -/
def DB.empty : DB :=
  { grupos := [], empresas := [], usuariosGrupos := [],
    configuraciones := [], planesDeCuentas := [], nextId := 1, now := 0 }

/-- `prisma.grupoEconomico.findUnique({where:{id}})`. -/
def DB.findGrupo (db : DB) (id : Nat) : Option Grupo :=
  db.grupos.find? (fun g => g.id == id)

/-- The `empresas` relation included by `findById`. -/
def DB.empresasDe (db : DB) (grupoId : Nat) : List Empresa :=
  db.empresas.filter (fun e => e.grupoEconomicoId == grupoId)

/-! ## Repository (`src/repositories/grupos.repository.ts`) -/

namespace GruposRepository

/-- `verificarAccesoUsuario`: existence of the membership row for the
exact (usuarioId, grupoEconomicoId) pair. -/
def verificarAccesoUsuario (db : DB) (grupoId usuarioId : Nat) : Bool :=
  db.usuariosGrupos.any
    (fun ug => ug.usuarioId == usuarioId && ug.grupoEconomicoId == grupoId)

/-- `exists(id)`: `count({where:{id}}) > 0`. -/
def existePorId (db : DB) (id : Nat) : Bool :=
  (db.grupos.filter (fun g => g.id == id)).length > 0

/-- The group row inserted by step 1 of `create`
(`rutControlador: data.rutControlador || null` — empty string or absent
becomes NULL; `activo` defaults to true). -/
def nuevoGrupo (db : DB) (data : CreateGrupoDto) : Grupo :=
  { id := db.nextId
    nombre := data.nombre
    rutControlador :=
      match data.rutControlador with
      | some s => if s = "" then none else some s
      | none => none
    paisPrincipal := data.paisPrincipal
    monedaBase := data.monedaBase
    activo := true
    fechaCreacion := db.now }

/-- The default `configuracionContable` row inserted by step 3 of `create`. -/
def configPorDefecto (grupoId : Nat) : ConfiguracionContable :=
  { grupoEconomicoId := grupoId
    permitirAsientosEnPeriodoCerrado := false
    requiereAprobacionGlobal := false
    montoMinimoAprobacion := 50000
    permitirAsientosDescuadrados := false
    decimalesMonto := 2
    decimalesTipoCambio := 4 }

/-- The `planDeCuentas` row inserted by step 4 of `create`. -/
def planPorDefecto (grupoId : Nat) (nombreGrupo : String) : PlanDeCuentas :=
  { grupoEconomicoId := grupoId
    nombre := "Plan de cuentas - " ++ nombreGrupo
    descripcion := "Plan de cuentas por defecto" }

/-- The body of the `create` transaction: the four inserts (group,
ADMIN membership for the creator, default configuration, default chart of
accounts), applied to the state. -/
def createBody (db : DB) (data : CreateGrupoDto) (creadoPorUsuarioId : Nat) :
    Grupo × DB :=
  (nuevoGrupo db data,
   { db with
      grupos := nuevoGrupo db data :: db.grupos
      usuariosGrupos :=
        { usuarioId := creadoPorUsuarioId, grupoEconomicoId := (nuevoGrupo db data).id,
          rol := "ADMIN" } :: db.usuariosGrupos
      configuraciones := configPorDefecto (nuevoGrupo db data).id :: db.configuraciones
      planesDeCuentas :=
        planPorDefecto (nuevoGrupo db data).id (nuevoGrupo db data).nombre ::
          db.planesDeCuentas
      nextId := db.nextId + 1
      now := db.now + 1 })

/-- `create` wrapped in `prisma.$transaction`: `stepFails i` says whether
the i-th insert throws (e.g. a constraint violation).  Transaction
semantics: if any step throws, everything rolls back and the state is the
pre-state; otherwise all four inserts are applied. -/
def createTx (db : DB) (data : CreateGrupoDto) (creadoPorUsuarioId : Nat)
    (stepFails : Fin 4 → Bool) : Option Grupo × DB :=
  if stepFails 0 || stepFails 1 || stepFails 2 || stepFails 3 then
    (none, db)
  else
    let (g, db') := createBody db data creadoPorUsuarioId
    (some g, db')

/-- The row produced by `update`'s data object.  JavaScript truthiness:
`data.nombre && {...}` skips the field when absent OR empty; the same for
`paisPrincipal` / `monedaBase`; `rutControlador` and `activo` are guarded
by `!== undefined`, and `rutControlador || null` maps `""` to NULL. -/
def applyUpdate (g : Grupo) (d : UpdateGrupoDto) : Grupo :=
  { g with
    nombre :=
      match d.nombre with
      | some s => if s = "" then g.nombre else s
      | none => g.nombre
    rutControlador :=
      match d.rutControlador with
      | some s => if s = "" then none else some s
      | none => g.rutControlador
    paisPrincipal :=
      match d.paisPrincipal with
      | some s => if s = "" then g.paisPrincipal else s
      | none => g.paisPrincipal
    monedaBase :=
      match d.monedaBase with
      | some s => if s = "" then g.monedaBase else s
      | none => g.monedaBase
    activo :=
      match d.activo with
      | some b => b
      | none => g.activo }

/-- `update(id, data)`: Prisma `update` on the unique id.  Returns the
updated row (`none` models the P2025 throw when the row is absent, state
unchanged in that case). -/
def update (db : DB) (id : Nat) (d : UpdateGrupoDto) : DB × Option Grupo :=
  match db.findGrupo id with
  | none => (db, none)
  | some g =>
    ({ db with grupos :=
        db.grupos.map (fun x => if x.id == id then applyUpdate g d else x) },
     some (applyUpdate g d))

/-- `delete(id)`: soft delete, `update({where:{id}, data:{activo:false}})`. -/
def deleteGrupo (db : DB) (id : Nat) : DB :=
  { db with
    grupos := db.grupos.map (fun x => if x.id == id then { x with activo := false } else x) }

end GruposRepository

/-! ## Listing (`findMany`) -/

/-- The output of `ListGruposQuerySchema.parse` (`ListGruposQuery`):
`page`/`limit` already transformed to numbers and refined
(`page > 0`, `1 ≤ limit ≤ 100` hold for validated queries but are not
baked into the type). -/
structure ListGruposQuery where
  page : Nat
  limit : Nat
  search : Option String := none
  activo : Option Bool := none
  paisPrincipal : Option String := none
deriving Repr, DecidableEq

/-- Contiguous-substring test on character lists. -/
def containsChars (needle : List Char) : List Char → Bool
  | [] => needle.isEmpty
  | c :: rest => needle.isPrefixOf (c :: rest) || containsChars needle rest

/-- Case-insensitive substring test (`contains` with `mode:'insensitive'`). -/
def containsCI (haystack needle : String) : Bool :=
  containsChars (strToLower needle).data (strToLower haystack).data

/-- Pagination metadata returned by `findMany`. -/
structure Pagination where
  page : Nat
  limit : Nat
  total : Nat
  totalPages : Nat
deriving Repr, DecidableEq

/-- The `{ data, pagination }` envelope returned by `findMany`. -/
structure ListResult where
  data : List Grupo
  pagination : Pagination
deriving Repr, DecidableEq

namespace GruposRepository

/-- The dynamic `where` built by `findMany`: case-insensitive substring
match on `nombre` OR `rutControlador` when `search` is truthy (a NULL
`rutControlador` column never matches `contains`); equality on `activo`
when defined; equality on `paisPrincipal` when truthy. -/
def matchesWhere (q : ListGruposQuery) (g : Grupo) : Bool :=
  (match q.search with
   | some s =>
      if s = "" then true
      else containsCI g.nombre s ||
        (match g.rutControlador with
         | some r => containsCI r s
         | none => false)
   | none => true) &&
  (match q.activo with
   | some b => g.activo == b
   | none => true) &&
  (match q.paisPrincipal with
   | some p => if p = "" then true else g.paisPrincipal == p
   | none => true)

/-- Insert into a list already sorted by `fechaCreacion` descending. -/
def insertFechaDesc (g : Grupo) : List Grupo → List Grupo
  | [] => [g]
  | h :: t =>
    if h.fechaCreacion < g.fechaCreacion then g :: h :: t
    else h :: insertFechaDesc g t

/-- `orderBy: { fechaCreacion: 'desc' }` as an insertion sort. -/
def sortFechaDesc : List Grupo → List Grupo
  | [] => []
  | h :: t => insertFechaDesc h (sortFechaDesc t)

/-- `findMany(filters)`: the count query and the page query over the same
`where`; the page query is ordered by creation time descending, offset by
`(page-1)*limit` and limited to `limit`; `totalPages = Math.ceil(total /
limit)`, which for natural `total` and positive `limit` is
`(total + limit - 1) / limit` in integer arithmetic. -/
def findMany (db : DB) (q : ListGruposQuery) : ListResult :=
  let skip := (q.page - 1) * q.limit
  let matched := db.grupos.filter (matchesWhere q)
  let total := matched.length
  { data := ((sortFechaDesc matched).drop skip).take q.limit
    pagination :=
      { page := q.page, limit := q.limit, total := total
        totalPages := (total + q.limit - 1) / q.limit } }

end GruposRepository

/-! ## Service (`src/services/grupos.service.ts`) -/

/-- Result envelope of `GruposService.eliminar`. -/
structure DeleteResult where
  success : Bool
  message : String
deriving Repr, DecidableEq

namespace GruposService

/-- JavaScript truthiness of an optional string field (`undefined` and
`""` are falsy). -/
def truthy : Option String → Bool
  | some s => s ≠ ""
  | none => false

/-- `validarDatosGrupo(data)`: the private cross-field business
validation, over a partial DTO (an update patch; a create DTO passes all
fields as present).  Checks run in source order and the first failure
throws. -/
def validarDatosGrupo (nombre rutControlador paisPrincipal monedaBase : Option String) :
    Except AppError Unit :=
  if truthy nombre ∧ (strTrim (nombre.getD "")).length < 3 then
    .error (.businessRule "El nombre debe tener al menos 3 caracteres" none)
  else if truthy rutControlador ∧ ¬ rutFormatOk (rutControlador.getD "") then
    .error (.businessRule "El RUT debe tener 12 dígitos numéricos" none)
  else if paisPrincipal = some "UY" ∧ truthy monedaBase ∧
      (monedaBase.getD "") ∉ (["UYU", "USD"] : List String) then
    .error (.businessRule "Para Uruguay, la moneda base debe ser UYU o USD"
      (some "MONEDA_INVALIDA_PAIS"))
  else
    .ok ()

/-- `listar(filters, usuarioId)`: delegates to `findMany` with no
per-user filtering (the TODO in the source); `usuarioId` is only logged. -/
def listar (db : DB) (filters : ListGruposQuery) (_usuarioId : Nat) : ListResult :=
  GruposRepository.findMany db filters

/-- `obtenerPorId(grupoId, usuarioId)`: NotFound if the row is absent,
Forbidden if the caller has no membership, else the group. -/
def obtenerPorId (db : DB) (grupoId usuarioId : Nat) : Except AppError Grupo :=
  match db.findGrupo grupoId with
  | none => .error (.notFound "Grupo Económico" (some grupoId))
  | some grupo =>
    if GruposRepository.verificarAccesoUsuario db grupoId usuarioId then
      .ok grupo
    else
      .error (.forbidden "No tienes acceso a este grupo económico")

/-- `crear(data, usuarioId)`: business validation then the creation
transaction.  Returns the new state and the outcome; on rejection the
state is returned unchanged. -/
def crear (db : DB) (data : CreateGrupoDto) (usuarioId : Nat) :
    DB × Except AppError Grupo :=
  match validarDatosGrupo (some data.nombre) data.rutControlador
      (some data.paisPrincipal) (some data.monedaBase) with
  | .error e => (db, .error e)
  | .ok _ =>
    let (g, db') := GruposRepository.createBody db data usuarioId
    (db', .ok g)

/-- `actualizar(grupoId, data, usuarioId)`: existence check (NotFound),
access check (Forbidden), business validation only when
`data.nombre || data.paisPrincipal || data.monedaBase` is truthy, then
the repository update. -/
def actualizar (db : DB) (grupoId : Nat) (data : UpdateGrupoDto) (usuarioId : Nat) :
    DB × Except AppError Grupo :=
  if ¬ GruposRepository.existePorId db grupoId then
    (db, .error (.notFound "Grupo Económico" (some grupoId)))
  else if ¬ GruposRepository.verificarAccesoUsuario db grupoId usuarioId then
    (db, .error (.forbidden "No tienes acceso a este grupo económico"))
  else
    match
      (if truthy data.nombre || truthy data.paisPrincipal || truthy data.monedaBase then
        validarDatosGrupo data.nombre data.rutControlador data.paisPrincipal data.monedaBase
      else .ok ()) with
    | .error e => (db, .error e)
    | .ok _ =>
      match GruposRepository.update db grupoId data with
      | (db', some g) => (db', .ok g)
      | (db', none) => (db', .error (.notFound "Registro" none))

/-- `eliminar(grupoId, usuarioId)`: fetch (NotFound), access check
(Forbidden), reject with `EMPRESAS_ACTIVAS` if any attached company is
active, else soft delete. -/
def eliminar (db : DB) (grupoId usuarioId : Nat) :
    DB × Except AppError DeleteResult :=
  match db.findGrupo grupoId with
  | none => (db, .error (.notFound "Grupo Económico" (some grupoId)))
  | some _grupo =>
    if ¬ GruposRepository.verificarAccesoUsuario db grupoId usuarioId then
      (db, .error (.forbidden "No tienes acceso a este grupo económico"))
    else if (db.empresasDe grupoId).any (fun e => e.activa) then
      (db, .error (.businessRule
        "No se puede eliminar un grupo con empresas activas. Desactiva las empresas primero."
        (some "EMPRESAS_ACTIVAS")))
    else
      (GruposRepository.deleteGrupo db grupoId,
       .ok { success := true, message := "Grupo económico eliminado correctamente" })

end GruposService

/-! ## Operation traces

All service operations of the slice as a step function on the database
state, to reason about reachability and temporal properties.  The
read-only operations (`listar`, `obtenerPorId`, `obtenerGruposUsuario`)
leave the state unchanged; the mutating ones are the service functions
above, which already return the post-state (unchanged on rejection). -/

/-- One invocation of a service operation of this slice. -/
inductive Op where
  | crear (data : CreateGrupoDto) (usuarioId : Nat)
  | actualizar (grupoId : Nat) (data : UpdateGrupoDto) (usuarioId : Nat)
  | eliminar (grupoId : Nat) (usuarioId : Nat)
  | listar (filters : ListGruposQuery) (usuarioId : Nat)
  | obtenerPorId (grupoId : Nat) (usuarioId : Nat)
deriving Repr, DecidableEq

/-- The state reached after one operation. -/
def applyOp (db : DB) : Op → DB
  | .crear data uid => (GruposService.crear db data uid).1
  | .actualizar gid data uid => (GruposService.actualizar db gid data uid).1
  | .eliminar gid uid => (GruposService.eliminar db gid uid).1
  | .listar _ _ => db
  | .obtenerPorId _ _ => db

/-- The state reached after a sequence of operations. -/
def run (db : DB) (ops : List Op) : DB :=
  ops.foldl applyOp db

/-- An operation that never submits `activo: true` in an update patch. -/
def Op.noReactiva : Op → Prop
  | .actualizar _ d _ => d.activo ≠ some true
  | _ => True

instance : DecidablePred Op.noReactiva := fun op => by
  cases op <;> simp only [Op.noReactiva] <;> infer_instance

/-! ## Concrete fixtures -/

/-- An active Uruguayan group. -/
def grupoUy : Grupo :=
  { id := 1, nombre := "Grupo Uno", rutControlador := none,
    paisPrincipal := "UY", monedaBase := "UYU", activo := true, fechaCreacion := 0 }

/-- A state holding `grupoUy` with user 1 as its ADMIN member. -/
def dbUy : DB :=
  { DB.empty with
    grupos := [grupoUy]
    usuariosGrupos := [{ usuarioId := 1, grupoEconomicoId := 1, rol := "ADMIN" }]
    nextId := 2, now := 1 }

/-- `dbUy` with one active company attached to the group. -/
def dbUyEmpresaActiva : DB :=
  { dbUy with
    empresas := [{ id := 1, grupoEconomicoId := 1, nombre := "Empresa Uno", activa := true }] }

/-- A create DTO for a Uruguayan group. -/
def dtoUy : CreateGrupoDto :=
  { nombre := "Grupo Uno", rutControlador := none,
    paisPrincipal := "UY", monedaBase := "UYU" }

/-- `dbUy` with the group already soft-deleted (inactive). -/
def dbUyInactivo : DB :=
  { dbUy with grupos := [{ grupoUy with activo := false }] }

/-- Every stored group with the given id is inactive (decidably). -/
def inactivoEn (db : DB) (gid : Nat) : Bool :=
  db.grupos.all (fun g => !(g.id == gid) || !g.activo)

/-- A state with five groups matching the empty filter, with distinct
creation timestamps, for the pagination scenario. -/
def dbCinco : DB :=
  { DB.empty with
    grupos :=
      [{ id := 1, nombre := "G1", rutControlador := none, paisPrincipal := "UY",
         monedaBase := "UYU", activo := true, fechaCreacion := 0 },
       { id := 2, nombre := "G2", rutControlador := none, paisPrincipal := "UY",
         monedaBase := "UYU", activo := true, fechaCreacion := 1 },
       { id := 3, nombre := "G3", rutControlador := none, paisPrincipal := "AR",
         monedaBase := "ARS", activo := true, fechaCreacion := 2 },
       { id := 4, nombre := "G4", rutControlador := none, paisPrincipal := "CL",
         monedaBase := "CLP", activo := true, fechaCreacion := 3 },
       { id := 5, nombre := "G5", rutControlador := none, paisPrincipal := "UY",
         monedaBase := "USD", activo := false, fechaCreacion := 4 }]
    nextId := 6, now := 5 }

/-! ## Helper lemmas -/

/-- `find?` by id commutes with mapping an id-preserving function. -/
theorem find?_map_id_preserved (l : List Grupo) (f : Grupo → Grupo)
    (hf : ∀ g, (f g).id = g.id) (gid : Nat) :
    (l.map f).find? (fun g => g.id == gid) = (l.find? (fun g => g.id == gid)).map f := by
  have hpred : ((fun g : Grupo => g.id == gid) ∘ f) = (fun g : Grupo => g.id == gid) := by
    funext g
    simp [Function.comp, hf]
  rw [List.find?_map, hpred]

/-- The per-row soft-delete function preserves ids. -/
theorem deleteFun_id (id : Nat) (x : Grupo) :
    (if x.id == id then { x with activo := false } else x).id = x.id := by
  by_cases h : x.id = id <;> simp [h]

/-- After a soft delete, the row is found with `activo := false` and no
other field changed. -/
theorem findGrupo_deleteGrupo_self (db : DB) (gid : Nat) (g : Grupo)
    (hg : db.findGrupo gid = some g) :
    (GruposRepository.deleteGrupo db gid).findGrupo gid = some { g with activo := false } := by
  unfold DB.findGrupo at hg
  have hid : (g.id == gid) = true := by simpa using List.find?_some hg
  unfold GruposRepository.deleteGrupo DB.findGrupo
  rw [find?_map_id_preserved _ _ (deleteFun_id gid) gid, hg]
  have hid' : g.id = gid := by simpa using hid
  simp [hid']

/-- Soft delete is idempotent on the state. -/
theorem deleteGrupo_idem (db : DB) (id : Nat) :
    GruposRepository.deleteGrupo (GruposRepository.deleteGrupo db id) id =
      GruposRepository.deleteGrupo db id := by
  have hff : ((fun x : Grupo => if x.id == id then { x with activo := false } else x) ∘
      (fun x : Grupo => if x.id == id then { x with activo := false } else x)) =
      (fun x : Grupo => if x.id == id then { x with activo := false } else x) := by
    funext x
    by_cases h : x.id = id <;> simp [Function.comp, h]
  simp only [GruposRepository.deleteGrupo, List.map_map, hff]

/-! ## Claims -/

/-- **C9** — The list operation's result does not depend on the calling
user: for every filter set and every two user ids, `listar` returns
identical data and pagination against the same state (listing is not
scoped to the caller's accessible groups). -/
theorem c9_listar_no_depende_del_usuario
    (db : DB) (filters : ListGruposQuery) (u1 u2 : Nat) :
    GruposService.listar db filters u1 = GruposService.listar db filters u2 := rfl

/-- **C6** — `obtenerPorId` throws NotFound exactly when no group with the
id exists; Forbidden when the group exists but the caller has no
membership row; and returns the group when both exist.  NotFound takes
precedence, since the iff holds for every caller. -/
theorem c6_obtenerPorId_caracterizacion (db : DB) (grupoId usuarioId : Nat) :
    (db.findGrupo grupoId = none ↔
      GruposService.obtenerPorId db grupoId usuarioId =
        .error (.notFound "Grupo Económico" (some grupoId))) ∧
    (∀ g, db.findGrupo grupoId = some g →
      GruposRepository.verificarAccesoUsuario db grupoId usuarioId = false →
      GruposService.obtenerPorId db grupoId usuarioId =
        .error (.forbidden "No tienes acceso a este grupo económico")) ∧
    (∀ g, db.findGrupo grupoId = some g →
      GruposRepository.verificarAccesoUsuario db grupoId usuarioId = true →
      GruposService.obtenerPorId db grupoId usuarioId = .ok g) := by
  refine ⟨⟨fun h => by simp [GruposService.obtenerPorId, h], fun h => ?_⟩,
    fun g hg hacc => by simp [GruposService.obtenerPorId, hg, hacc],
    fun g hg hacc => by simp [GruposService.obtenerPorId, hg, hacc]⟩
  cases hg : db.findGrupo grupoId with
  | none => rfl
  | some g =>
    exfalso
    by_cases hacc : GruposRepository.verificarAccesoUsuario db grupoId usuarioId <;>
      simp [GruposService.obtenerPorId, hg, hacc] at h

/-- Witness for C6 at a concrete state: the group exists, user 1 is a
member, and `obtenerPorId` returns it. -/
theorem c6_witness : GruposService.obtenerPorId dbUy 1 1 = .ok grupoUy :=
  (c6_obtenerPorId_caracterizacion dbUy 1 1).2.2 grupoUy (by decide) (by decide)

/-- **C7** — The repository update is a partial patch: fields absent from
the DTO keep their stored value (`id` and `fechaCreacion` are never
touched), a name-only patch leaves country, currency, tax id and active
flag unchanged, `rutControlador` given as the empty string is stored as
NULL, and rows with a different id are untouched. -/
theorem c7_update_es_parche_parcial (db : DB) (id : Nat) (g : Grupo) (d : UpdateGrupoDto) :
    ((GruposRepository.applyUpdate g d).id = g.id ∧
     (GruposRepository.applyUpdate g d).fechaCreacion = g.fechaCreacion) ∧
    (d.nombre = none → (GruposRepository.applyUpdate g d).nombre = g.nombre) ∧
    (d.rutControlador = none →
      (GruposRepository.applyUpdate g d).rutControlador = g.rutControlador) ∧
    (d.paisPrincipal = none →
      (GruposRepository.applyUpdate g d).paisPrincipal = g.paisPrincipal) ∧
    (d.monedaBase = none → (GruposRepository.applyUpdate g d).monedaBase = g.monedaBase) ∧
    (d.activo = none → (GruposRepository.applyUpdate g d).activo = g.activo) ∧
    (d.rutControlador = some "" → (GruposRepository.applyUpdate g d).rutControlador = none) ∧
    (∀ n, d = { nombre := some n } →
      (GruposRepository.applyUpdate g d).paisPrincipal = g.paisPrincipal ∧
      (GruposRepository.applyUpdate g d).monedaBase = g.monedaBase ∧
      (GruposRepository.applyUpdate g d).rutControlador = g.rutControlador ∧
      (GruposRepository.applyUpdate g d).activo = g.activo) ∧
    (∀ g', g' ∈ db.grupos → g'.id ≠ id →
      g' ∈ (GruposRepository.update db id d).1.grupos) := by
  refine ⟨⟨rfl, rfl⟩,
    fun h => by simp [GruposRepository.applyUpdate, h],
    fun h => by simp [GruposRepository.applyUpdate, h],
    fun h => by simp [GruposRepository.applyUpdate, h],
    fun h => by simp [GruposRepository.applyUpdate, h],
    fun h => by simp [GruposRepository.applyUpdate, h],
    fun h => by simp [GruposRepository.applyUpdate, h],
    fun n h => by subst h; simp [GruposRepository.applyUpdate],
    fun g' hg' hne => ?_⟩
  unfold GruposRepository.update
  cases hf : db.findGrupo id with
  | none => simpa using hg'
  | some g0 =>
    simp only []
    have : (fun x => if x.id == id then GruposRepository.applyUpdate g0 d else x) g' = g' := by
      simp [hne]
    exact this ▸ List.mem_map_of_mem _ hg'

/-- Witness for C7 at a concrete group and a name-only patch: the base
currency is untouched. -/
theorem c7_witness :
    (GruposRepository.applyUpdate grupoUy { nombre := some "Nuevo Nombre" }).monedaBase =
      grupoUy.monedaBase :=
  ((c7_update_es_parche_parcial dbUy 1 grupoUy { nombre := some "Nuevo Nombre" }).2.2.2.2.1) rfl

/-- **C3** — `create` is one atomic unit of exactly four inserts: if no
step throws, the state gains exactly the group row, one ADMIN membership
row for the creator, one configuration row with exactly the fixed
defaults, and one chart-of-accounts row whose name contains the group's
name (and nothing else changes in any table); if any step throws, the
transaction rolls back and the state is exactly the pre-state. -/
theorem c3_create_transaccional (db : DB) (data : CreateGrupoDto) (uid : Nat)
    (stepFails : Fin 4 → Bool) :
    ((stepFails 0 || stepFails 1 || stepFails 2 || stepFails 3) = true →
      (GruposRepository.createTx db data uid stepFails).1 = none ∧
      (GruposRepository.createTx db data uid stepFails).2 = db) ∧
    ((stepFails 0 || stepFails 1 || stepFails 2 || stepFails 3) = false →
      ∃ g, (GruposRepository.createTx db data uid stepFails).1 = some g ∧
        (GruposRepository.createTx db data uid stepFails).2.grupos = g :: db.grupos ∧
        (GruposRepository.createTx db data uid stepFails).2.usuariosGrupos =
          { usuarioId := uid, grupoEconomicoId := g.id, rol := "ADMIN" } ::
            db.usuariosGrupos ∧
        (GruposRepository.createTx db data uid stepFails).2.configuraciones =
          { grupoEconomicoId := g.id
            permitirAsientosEnPeriodoCerrado := false
            requiereAprobacionGlobal := false
            montoMinimoAprobacion := 50000
            permitirAsientosDescuadrados := false
            decimalesMonto := 2
            decimalesTipoCambio := 4 } :: db.configuraciones ∧
        (GruposRepository.createTx db data uid stepFails).2.planesDeCuentas =
          { grupoEconomicoId := g.id
            nombre := "Plan de cuentas - " ++ g.nombre
            descripcion := "Plan de cuentas por defecto" } :: db.planesDeCuentas ∧
        (GruposRepository.createTx db data uid stepFails).2.empresas = db.empresas ∧
        g.nombre = data.nombre ∧ g.activo = true ∧
        ∃ pre, "Plan de cuentas - " ++ g.nombre = pre ++ g.nombre) := by
  constructor
  · intro hfail
    simp [GruposRepository.createTx, hfail]
  · intro hok
    refine ⟨GruposRepository.nuevoGrupo db data, ?_⟩
    simp [GruposRepository.createTx, hok, GruposRepository.createBody,
      GruposRepository.configPorDefecto, GruposRepository.planPorDefecto,
      GruposRepository.nuevoGrupo]
    exact ⟨"Plan de cuentas - ", rfl⟩

/-- Witness for C3: with no failing step, creating `dtoUy` in the empty
state yields the four rows. -/
theorem c3_witness :
    ∃ g, (GruposRepository.createTx DB.empty dtoUy 1 (fun _ => false)).1 = some g ∧
      (GruposRepository.createTx DB.empty dtoUy 1 (fun _ => false)).2.grupos =
        g :: DB.empty.grupos ∧
      (GruposRepository.createTx DB.empty dtoUy 1 (fun _ => false)).2.usuariosGrupos =
        { usuarioId := 1, grupoEconomicoId := g.id, rol := "ADMIN" } ::
          DB.empty.usuariosGrupos ∧
      (GruposRepository.createTx DB.empty dtoUy 1 (fun _ => false)).2.configuraciones =
        { grupoEconomicoId := g.id
          permitirAsientosEnPeriodoCerrado := false
          requiereAprobacionGlobal := false
          montoMinimoAprobacion := 50000
          permitirAsientosDescuadrados := false
          decimalesMonto := 2
          decimalesTipoCambio := 4 } :: DB.empty.configuraciones ∧
      (GruposRepository.createTx DB.empty dtoUy 1 (fun _ => false)).2.planesDeCuentas =
        { grupoEconomicoId := g.id
          nombre := "Plan de cuentas - " ++ g.nombre
          descripcion := "Plan de cuentas por defecto" } :: DB.empty.planesDeCuentas ∧
      (GruposRepository.createTx DB.empty dtoUy 1 (fun _ => false)).2.empresas =
        DB.empty.empresas ∧
      g.nombre = dtoUy.nombre ∧ g.activo = true ∧
      ∃ pre, "Plan de cuentas - " ++ g.nombre = pre ++ g.nombre :=
  (c3_create_transaccional DB.empty dtoUy 1 (fun _ => false)).2 (by decide)

/-- **C4** — For an existing, accessible group: with at least one active
company, `eliminar` is rejected with the 422 BusinessRule error carrying
rule `EMPRESAS_ACTIVAS` and the state is exactly unchanged; with zero
active companies it succeeds, flips `activo` to false, changes no other
field of the group, and touches no other row or table. -/
theorem c4_eliminar_guard_empresas (db : DB) (grupoId usuarioId : Nat) (g : Grupo)
    (hg : db.findGrupo grupoId = some g)
    (hacc : GruposRepository.verificarAccesoUsuario db grupoId usuarioId = true) :
    ((db.empresasDe grupoId).any (fun e => e.activa) = true →
      GruposService.eliminar db grupoId usuarioId =
        (db, .error (.businessRule
          "No se puede eliminar un grupo con empresas activas. Desactiva las empresas primero."
          (some "EMPRESAS_ACTIVAS"))) ∧
      AppError.statusCode (.businessRule
        "No se puede eliminar un grupo con empresas activas. Desactiva las empresas primero."
        (some "EMPRESAS_ACTIVAS")) = 422) ∧
    ((db.empresasDe grupoId).any (fun e => e.activa) = false →
      (GruposService.eliminar db grupoId usuarioId).2 =
        .ok { success := true, message := "Grupo económico eliminado correctamente" } ∧
      (GruposService.eliminar db grupoId usuarioId).1.findGrupo grupoId =
        some { g with activo := false } ∧
      (GruposService.eliminar db grupoId usuarioId).1.empresas = db.empresas ∧
      (GruposService.eliminar db grupoId usuarioId).1.usuariosGrupos = db.usuariosGrupos ∧
      (GruposService.eliminar db grupoId usuarioId).1.configuraciones = db.configuraciones ∧
      (GruposService.eliminar db grupoId usuarioId).1.planesDeCuentas = db.planesDeCuentas ∧
      (GruposService.eliminar db grupoId usuarioId).1.nextId = db.nextId ∧
      (GruposService.eliminar db grupoId usuarioId).1.now = db.now ∧
      ∀ g', g' ∈ db.grupos → g'.id ≠ grupoId →
        g' ∈ (GruposService.eliminar db grupoId usuarioId).1.grupos) := by
  constructor
  · intro hemp
    refine ⟨?_, rfl⟩
    simp [GruposService.eliminar, hg, hacc, hemp]
  · intro hemp
    have helim : GruposService.eliminar db grupoId usuarioId =
        (GruposRepository.deleteGrupo db grupoId,
         .ok { success := true, message := "Grupo económico eliminado correctamente" }) := by
      simp [GruposService.eliminar, hg, hacc, hemp]
    rw [helim]
    refine ⟨rfl, findGrupo_deleteGrupo_self db grupoId g hg, rfl, rfl, rfl, rfl, rfl, rfl,
      fun g' hg' hne => ?_⟩
    have : (if g'.id == grupoId then { g' with activo := false } else g') = g' := by
      simp [hne]
    exact this ▸ List.mem_map_of_mem _ hg'

/-- Witness for C4 at a concrete accessible group with no companies:
the soft delete succeeds and the stored row ends with `activo = false`. -/
theorem c4_witness :
    (GruposService.eliminar dbUy 1 1).2 =
      .ok { success := true, message := "Grupo económico eliminado correctamente" } ∧
    (GruposService.eliminar dbUy 1 1).1.findGrupo 1 = some { grupoUy with activo := false } :=
  ⟨((c4_eliminar_guard_empresas dbUy 1 1 grupoUy (by decide) (by decide)).2 (by decide)).1,
   ((c4_eliminar_guard_empresas dbUy 1 1 grupoUy (by decide) (by decide)).2 (by decide)).2.1⟩

/-- **C10** — Soft delete is idempotent: for an existing accessible group
with zero active companies, deleting a second time (the group now already
inactive) succeeds with the same success envelope, and the state after
the second delete equals the state after the first (there is no
still-active precondition). -/
theorem c10_eliminar_idempotente (db : DB) (grupoId usuarioId : Nat) (g : Grupo)
    (hg : db.findGrupo grupoId = some g)
    (hacc : GruposRepository.verificarAccesoUsuario db grupoId usuarioId = true)
    (hemp : (db.empresasDe grupoId).any (fun e => e.activa) = false) :
    (GruposService.eliminar db grupoId usuarioId).2 =
      .ok { success := true, message := "Grupo económico eliminado correctamente" } ∧
    GruposService.eliminar (GruposService.eliminar db grupoId usuarioId).1 grupoId usuarioId =
      ((GruposService.eliminar db grupoId usuarioId).1,
       .ok { success := true, message := "Grupo económico eliminado correctamente" }) := by
  have helim : GruposService.eliminar db grupoId usuarioId =
      (GruposRepository.deleteGrupo db grupoId,
       .ok { success := true, message := "Grupo económico eliminado correctamente" }) := by
    simp [GruposService.eliminar, hg, hacc, hemp]
  have hfind2 : (GruposRepository.deleteGrupo db grupoId).findGrupo grupoId =
      some { g with activo := false } := findGrupo_deleteGrupo_self db grupoId g hg
  have hacc2 : GruposRepository.verificarAccesoUsuario
      (GruposRepository.deleteGrupo db grupoId) grupoId usuarioId = true := hacc
  have hemp2 : ((GruposRepository.deleteGrupo db grupoId).empresasDe grupoId).any
      (fun e => e.activa) = false := hemp
  rw [helim]
  refine ⟨rfl, ?_⟩
  have helim2 : GruposService.eliminar (GruposRepository.deleteGrupo db grupoId)
      grupoId usuarioId =
      (GruposRepository.deleteGrupo (GruposRepository.deleteGrupo db grupoId) grupoId,
       .ok { success := true, message := "Grupo económico eliminado correctamente" }) := by
    simp [GruposService.eliminar, hfind2, hacc2, hemp2]
  rw [helim2, deleteGrupo_idem]

/-- Witness for C10: deleting the concrete group twice gives the same
success result both times. -/
theorem c10_witness :
    (GruposService.eliminar dbUy 1 1).2 =
      .ok { success := true, message := "Grupo económico eliminado correctamente" } ∧
    GruposService.eliminar (GruposService.eliminar dbUy 1 1).1 1 1 =
      ((GruposService.eliminar dbUy 1 1).1,
       .ok { success := true, message := "Grupo económico eliminado correctamente" }) :=
  c10_eliminar_idempotente dbUy 1 1 grupoUy (by decide) (by decide) (by decide)

/-- A too-short raw name contributes a `nombre` issue. -/
theorem nombre_issue_of_short (inp : CreateGrupoInput) (h : inp.nombre.length < 3) :
    ("nombre", "El nombre debe tener al menos 3 caracteres") ∈ createGrupoIssues inp := by
  simp [createGrupoIssues, h]

/-- A too-long raw name contributes a `nombre` issue. -/
theorem nombre_issue_of_long (inp : CreateGrupoInput) (h : 200 < inp.nombre.length) :
    ("nombre", "El nombre no puede exceder 200 caracteres") ∈ createGrupoIssues inp := by
  have h3 : ¬ inp.nombre.length < 3 := by omega
  simp [createGrupoIssues, h, h3]

/-- With a nonempty issue list, `parse` throws (returns the issues). -/
theorem validate_error_of_issues (inp : CreateGrupoInput)
    (h : createGrupoIssues inp ≠ []) :
    validateCreateGrupo inp = .error (createGrupoIssues inp) := by
  unfold validateCreateGrupo
  cases hiss : createGrupoIssues inp with
  | nil => exact absurd hiss h
  | cons a t => rfl

/-- **C5 counterexample** — the input name `" a "` (raw length 3) is
accepted by `CreateGrupoSchema.parse`, yet its trimmed value `"a"` has
length 1 < 3: acceptance is NOT limited to names whose trimmed length is
between 3 and 200, because Zod runs `.min(3).max(200)` before the
`.trim()` transform. -/
theorem c5_contraejemplo :
    validateCreateGrupo
        { nombre := " a ", rutControlador := none,
          paisPrincipal := "UY", monedaBase := "UYU" } =
      .ok
        { nombre := "a", rutControlador := none,
          paisPrincipal := "UY", monedaBase := "UYU" } ∧
    (strTrim " a ").length < 3 ∧ 3 ≤ (" a " : String).length := by decide

/-- **C5 (amended)** — the length bounds apply to the raw (untrimmed)
name: `validateCreateGrupo` accepts only when the raw name length is
between 3 and 200, and then the DTO's name is the trimmed value; every
raw name length below 3 or above 200 is rejected with a validation
failure that maps to status 400 and carries a `details` entry for
`nombre` (never any other error kind, since the schema rejects before
the service runs). -/
theorem c5_validacion_nombre_sin_trim (inp : CreateGrupoInput) :
    (∀ dto, validateCreateGrupo inp = .ok dto →
      3 ≤ inp.nombre.length ∧ inp.nombre.length ≤ 200 ∧
      dto.nombre = strTrim inp.nombre) ∧
    (inp.nombre.length < 3 ∨ 200 < inp.nombre.length →
      ∃ issues, validateCreateGrupo inp = .error issues ∧
        (handleZodError issues).statusCode = 400 ∧
        "nombre" ∈ (handleZodError issues).detailFields) := by
  constructor
  · intro dto hok
    unfold validateCreateGrupo at hok
    cases hiss : createGrupoIssues inp with
    | cons a t =>
      rw [hiss] at hok
      exact absurd hok (by simp)
    | nil =>
      rw [hiss] at hok
      have hdto : dto = { nombre := strTrim inp.nombre
                          rutControlador := inp.rutControlador
                          paisPrincipal := inp.paisPrincipal
                          monedaBase := inp.monedaBase } := by
        cases hok
        rfl
      refine ⟨?_, ?_, by rw [hdto]⟩
      · by_contra hlt
        have hmem := nombre_issue_of_short inp (by omega)
        rw [hiss] at hmem
        exact absurd hmem (List.not_mem_nil _)
      · by_contra hgt
        have hmem := nombre_issue_of_long inp (by omega)
        rw [hiss] at hmem
        exact absurd hmem (List.not_mem_nil _)
  · intro h
    have hmem : ∃ msg, ("nombre", msg) ∈ createGrupoIssues inp := by
      rcases h with hlt | hgt
      · exact ⟨_, nombre_issue_of_short inp hlt⟩
      · exact ⟨_, nombre_issue_of_long inp hgt⟩
    obtain ⟨msg, hmem⟩ := hmem
    refine ⟨createGrupoIssues inp,
      validate_error_of_issues inp (List.ne_nil_of_mem hmem), rfl, ?_⟩
    simpa [handleZodError, AppError.detailFields] using
      List.mem_map_of_mem Prod.fst hmem

/-- Witness for C5 (amended): the raw name `"ab"` (length 2) produces a
400 validation failure with a `nombre` detail entry. -/
theorem c5_witness :
    ∃ issues, validateCreateGrupo
        { nombre := "ab", rutControlador := none,
          paisPrincipal := "UY", monedaBase := "UYU" } = .error issues ∧
      (handleZodError issues).statusCode = 400 ∧
      "nombre" ∈ (handleZodError issues).detailFields :=
  (c5_validacion_nombre_sin_trim
      { nombre := "ab", rutControlador := none,
        paisPrincipal := "UY", monedaBase := "UYU" }).2 (Or.inl (by decide))

/-- **C1 counterexample** — starting from the empty state, create a
Uruguayan group with currency UYU, then update it submitting only
`monedaBase := "EUR"`: the update is ACCEPTED (the `MONEDA_INVALIDA_PAIS`
check only fires when the patch itself contains `paisPrincipal = 'UY'`),
and the reachable stored state holds a `UY` group whose currency is
`EUR`, which is neither `UYU` nor `USD`. -/
theorem c1_contraejemplo :
    (GruposService.actualizar (run DB.empty [.crear dtoUy 1]) 1
        { monedaBase := some "EUR" } 1).2 =
      .ok
        { id := 1, nombre := "Grupo Uno", rutControlador := none,
          paisPrincipal := "UY", monedaBase := "EUR", activo := true,
          fechaCreacion := 0 } ∧
    ((run DB.empty [.crear dtoUy 1, .actualizar 1 { monedaBase := some "EUR" } 1]).findGrupo
        1).map (fun g => (g.paisPrincipal, g.monedaBase)) = some ("UY", "EUR") := by decide

/-- **C1 (amended)** — the country-currency rule is enforced against the
submitted payload only, not the stored state: an update whose DTO itself
contains `paisPrincipal = "UY"` together with a (nonempty) currency
outside {UYU, USD} is rejected with the 422 BusinessRule error carrying
rule `MONEDA_INVALIDA_PAIS` and the state is unchanged, and a create DTO
with country UY and such a currency is likewise rejected; but an update
that omits the country (or the currency) bypasses the check, so the
stored-state invariant does not hold (see the counterexample). -/
theorem c1_moneda_uy_solo_payload (db : DB) (grupoId usuarioId : Nat)
    (data : UpdateGrupoDto) (cdata : CreateGrupoDto) (m : String)
    (hex : GruposRepository.existePorId db grupoId = true)
    (hacc : GruposRepository.verificarAccesoUsuario db grupoId usuarioId = true)
    (hn : data.nombre = none) (hr : data.rutControlador = none)
    (hp : data.paisPrincipal = some "UY") (hm : data.monedaBase = some m)
    (hm1 : m ≠ "") (hm2 : m ∉ (["UYU", "USD"] : List String))
    (hcn : 3 ≤ (strTrim cdata.nombre).length)
    (hcr : cdata.rutControlador = none)
    (hcp : cdata.paisPrincipal = "UY") (hcm : cdata.monedaBase = m) :
    GruposService.actualizar db grupoId data usuarioId =
      (db, .error (.businessRule "Para Uruguay, la moneda base debe ser UYU o USD"
        (some "MONEDA_INVALIDA_PAIS"))) ∧
    GruposService.crear db cdata usuarioId =
      (db, .error (.businessRule "Para Uruguay, la moneda base debe ser UYU o USD"
        (some "MONEDA_INVALIDA_PAIS"))) ∧
    AppError.statusCode (.businessRule "Para Uruguay, la moneda base debe ser UYU o USD"
      (some "MONEDA_INVALIDA_PAIS")) = 422 := by
  have hval : GruposService.validarDatosGrupo data.nombre data.rutControlador
      data.paisPrincipal data.monedaBase =
      .error (.businessRule "Para Uruguay, la moneda base debe ser UYU o USD"
        (some "MONEDA_INVALIDA_PAIS")) := by
    rw [hn, hr, hp, hm]
    simp [GruposService.validarDatosGrupo, GruposService.truthy, hm1, hm2]
  have hvalc : GruposService.validarDatosGrupo (some cdata.nombre) cdata.rutControlador
      (some cdata.paisPrincipal) (some cdata.monedaBase) =
      .error (.businessRule "Para Uruguay, la moneda base debe ser UYU o USD"
        (some "MONEDA_INVALIDA_PAIS")) := by
    rw [hcr, hcp, hcm]
    simp only [GruposService.validarDatosGrupo, GruposService.truthy]
    simp [hm1, hm2]
    exact fun _ => hcn
  refine ⟨?_, ?_, rfl⟩
  · have htr : GruposService.truthy data.paisPrincipal = true := by
      rw [hp]; simp [GruposService.truthy]
    simp [GruposService.actualizar, hex, hacc, htr, hval]
  · simp [GruposService.crear, hvalc]

/-- Witness for C1 (amended): the concrete update submitting both
`paisPrincipal = "UY"` and `monedaBase = "EUR"` is rejected with
`MONEDA_INVALIDA_PAIS` and the state is unchanged. -/
theorem c1_witness :
    GruposService.actualizar dbUy 1
        { paisPrincipal := some "UY", monedaBase := some "EUR" } 1 =
      (dbUy, .error (.businessRule "Para Uruguay, la moneda base debe ser UYU o USD"
        (some "MONEDA_INVALIDA_PAIS"))) ∧
    GruposService.crear dbUy
        { nombre := "Grupo Dos", rutControlador := none,
          paisPrincipal := "UY", monedaBase := "EUR" } 1 =
      (dbUy, .error (.businessRule "Para Uruguay, la moneda base debe ser UYU o USD"
        (some "MONEDA_INVALIDA_PAIS"))) ∧
    AppError.statusCode (.businessRule "Para Uruguay, la moneda base debe ser UYU o USD"
      (some "MONEDA_INVALIDA_PAIS")) = 422 :=
  c1_moneda_uy_solo_payload dbUy 1 1
    { paisPrincipal := some "UY", monedaBase := some "EUR" }
    { nombre := "Grupo Dos", rutControlador := none,
      paisPrincipal := "UY", monedaBase := "EUR" } "EUR"
    (by decide) (by decide) rfl rfl rfl rfl (by decide) (by decide)
    (by decide) rfl rfl rfl

/-- `inactivoEn` unpacked. -/
theorem inactivoEn_iff (db : DB) (gid : Nat) :
    inactivoEn db gid = true ↔ ∀ g ∈ db.grupos, g.id = gid → g.activo = false := by
  unfold inactivoEn
  rw [List.all_eq_true]
  constructor
  · intro h g hg hgid
    have hb := h g hg
    simp [hgid] at hb
    exact hb
  · intro h g hg
    by_cases hgid : g.id = gid
    · simp [hgid, h g hg hgid]
    · simp [hgid]

/-- `crear` either rejects (state unchanged) or applies the creation
transaction. -/
theorem crear_state (db : DB) (data : CreateGrupoDto) (u : Nat) :
    (GruposService.crear db data u).1 = db ∨
    (GruposService.crear db data u).1 = (GruposRepository.createBody db data u).2 := by
  unfold GruposService.crear
  cases GruposService.validarDatosGrupo (some data.nombre) data.rutControlador
      (some data.paisPrincipal) (some data.monedaBase) with
  | error e => exact Or.inl rfl
  | ok v => exact Or.inr rfl

/-- `actualizar` either rejects (state unchanged) or applies the
repository update. -/
theorem actualizar_state (db : DB) (rid : Nat) (d : UpdateGrupoDto) (u : Nat) :
    (GruposService.actualizar db rid d u).1 = db ∨
    (GruposService.actualizar db rid d u).1 = (GruposRepository.update db rid d).1 := by
  unfold GruposService.actualizar
  split
  · exact Or.inl rfl
  split
  · exact Or.inl rfl
  split
  · exact Or.inl rfl
  split
  · rename_i heq
    right
    rw [heq]
  · rename_i heq
    right
    rw [heq]

/-- `eliminar` either rejects (state unchanged) or soft-deletes. -/
theorem eliminar_state (db : DB) (rid u : Nat) :
    (GruposService.eliminar db rid u).1 = db ∨
    (GruposService.eliminar db rid u).1 = GruposRepository.deleteGrupo db rid := by
  unfold GruposService.eliminar
  cases db.findGrupo rid with
  | none => exact Or.inl rfl
  | some g =>
    by_cases h2 : GruposRepository.verificarAccesoUsuario db rid u
    · by_cases h3 : (db.empresasDe rid).any (fun e => e.activa)
      · simp [h2, h3]
      · simp [h2, h3]
    · simp [h2]

/-- The repository update does not touch the autoincrement counter. -/
theorem update_nextId (db : DB) (rid : Nat) (d : UpdateGrupoDto) :
    (GruposRepository.update db rid d).1.nextId = db.nextId := by
  unfold GruposRepository.update
  cases db.findGrupo rid <;> rfl

/-- The creation transaction preserves the id bound and inactivity of a
pre-existing id strictly below the counter. -/
theorem preserva_createBody (db : DB) (data : CreateGrupoDto) (u gid : Nat)
    (hb : ∀ g ∈ db.grupos, g.id < db.nextId)
    (hlt : gid < db.nextId)
    (hi : ∀ g ∈ db.grupos, g.id = gid → g.activo = false) :
    (∀ g ∈ (GruposRepository.createBody db data u).2.grupos,
      g.id < (GruposRepository.createBody db data u).2.nextId) ∧
    gid < (GruposRepository.createBody db data u).2.nextId ∧
    (∀ g ∈ (GruposRepository.createBody db data u).2.grupos,
      g.id = gid → g.activo = false) := by
  refine ⟨?_, Nat.lt_succ_of_lt hlt, ?_⟩
  · intro g hg
    rcases List.mem_cons.mp hg with rfl | hgm
    · exact Nat.lt_succ_self _
    · exact Nat.lt_succ_of_lt (hb g hgm)
  · intro g hg hgid
    rcases List.mem_cons.mp hg with rfl | hgm
    · exfalso
      have hidn : (GruposRepository.nuevoGrupo db data).id = db.nextId := rfl
      omega
    · exact hi g hgm hgid

/-- The repository update preserves the id bound and, when the patch does
not carry `activo: true`, inactivity of any tracked id. -/
theorem preserva_update (db : DB) (rid : Nat) (d : UpdateGrupoDto) (gid : Nat)
    (hb : ∀ g ∈ db.grupos, g.id < db.nextId)
    (hd : d.activo ≠ some true)
    (hi : ∀ g ∈ db.grupos, g.id = gid → g.activo = false) :
    (∀ g ∈ (GruposRepository.update db rid d).1.grupos, g.id < db.nextId) ∧
    (∀ g ∈ (GruposRepository.update db rid d).1.grupos, g.id = gid → g.activo = false) := by
  unfold GruposRepository.update
  cases hf : db.findGrupo rid with
  | none => exact ⟨hb, hi⟩
  | some gf =>
    unfold DB.findGrupo at hf
    have hgfmem : gf ∈ db.grupos := List.mem_of_find?_eq_some hf
    have hactualizado_id : (GruposRepository.applyUpdate gf d).id = gf.id := rfl
    constructor
    · intro g hg
      rcases List.mem_map.mp hg with ⟨x, hx, rfl⟩
      by_cases hxid : x.id = rid
      · simp only [hxid, beq_self_eq_true, if_true, reduceIte, hactualizado_id]
        exact hb gf hgfmem
      · simp only [beq_iff_eq, hxid, if_neg, reduceIte, ite_false]
        exact hb x hx
    · intro g hg hgid
      rcases List.mem_map.mp hg with ⟨x, hx, rfl⟩
      by_cases hxid : x.id = rid
      · simp only [hxid, beq_self_eq_true, if_true, reduceIte] at hgid ⊢
        have hgf : gf.id = gid := by rw [← hactualizado_id]; exact hgid
        have hgfin : gf.activo = false := hi gf hgfmem hgf
        unfold GruposRepository.applyUpdate
        cases hda : d.activo with
        | none => simpa using hgfin
        | some b =>
          cases b with
          | false => simp
          | true => exact absurd (by rw [hda]) hd
      · simp only [beq_iff_eq, hxid, if_neg, reduceIte, ite_false] at hgid ⊢
        exact hi x hx hgid

/-- Soft delete preserves the id bound and never sets `activo` to true. -/
theorem preserva_delete (db : DB) (rid gid : Nat)
    (hb : ∀ g ∈ db.grupos, g.id < db.nextId)
    (hi : ∀ g ∈ db.grupos, g.id = gid → g.activo = false) :
    (∀ g ∈ (GruposRepository.deleteGrupo db rid).grupos, g.id < db.nextId) ∧
    (∀ g ∈ (GruposRepository.deleteGrupo db rid).grupos, g.id = gid → g.activo = false) := by
  constructor
  · intro g hg
    rcases List.mem_map.mp hg with ⟨x, hx, rfl⟩
    by_cases hxid : x.id = rid
    · simp only [hxid, beq_self_eq_true, if_true, reduceIte]
      exact hxid ▸ hb x hx
    · simp only [beq_iff_eq, hxid, if_neg, reduceIte, ite_false]
      exact hb x hx
  · intro g hg hgid
    rcases List.mem_map.mp hg with ⟨x, hx, rfl⟩
    by_cases hxid : x.id = rid
    · simp [hxid]
    · simp only [beq_iff_eq, hxid, if_neg, reduceIte, ite_false] at hgid ⊢
      exact hi x hx hgid

/-- One step of any non-reactivating operation preserves the id bound,
the tracked-id bound and inactivity. -/
theorem applyOp_preserva_inactivo (db : DB) (op : Op) (gid : Nat)
    (hb : ∀ g ∈ db.grupos, g.id < db.nextId)
    (hlt : gid < db.nextId)
    (hop : op.noReactiva)
    (hi : ∀ g ∈ db.grupos, g.id = gid → g.activo = false) :
    (∀ g ∈ (applyOp db op).grupos, g.id < (applyOp db op).nextId) ∧
    gid < (applyOp db op).nextId ∧
    (∀ g ∈ (applyOp db op).grupos, g.id = gid → g.activo = false) := by
  cases op with
  | listar q u => exact ⟨hb, hlt, hi⟩
  | obtenerPorId i u => exact ⟨hb, hlt, hi⟩
  | crear data u =>
    rcases crear_state db data u with hs | hs <;>
      simp only [applyOp] <;> rw [hs]
    · exact ⟨hb, hlt, hi⟩
    · exact preserva_createBody db data u gid hb hlt hi
  | actualizar rid d u =>
    rcases actualizar_state db rid d u with hs | hs <;>
      simp only [applyOp] <;> rw [hs]
    · exact ⟨hb, hlt, hi⟩
    · have hpres := preserva_update db rid d gid hb hop hi
      rw [update_nextId]
      exact ⟨hpres.1, hlt, hpres.2⟩
  | eliminar rid u =>
    rcases eliminar_state db rid u with hs | hs <;>
      simp only [applyOp] <;> rw [hs]
    · exact ⟨hb, hlt, hi⟩
    · have hpres := preserva_delete db rid gid hb hi
      exact ⟨hpres.1, hlt, hpres.2⟩

/-- Trace-level preservation, by induction over the operation list. -/
theorem run_preserva_inactivo (ops : List Op) : ∀ (db : DB) (gid : Nat),
    (∀ g ∈ db.grupos, g.id < db.nextId) → gid < db.nextId →
    (∀ op ∈ ops, op.noReactiva) →
    (∀ g ∈ db.grupos, g.id = gid → g.activo = false) →
    ∀ g ∈ (run db ops).grupos, g.id = gid → g.activo = false := by
  induction ops with
  | nil => intro db gid _ _ _ hi; exact hi
  | cons op rest ih =>
    intro db gid hb hlt hops hi
    have hstep := applyOp_preserva_inactivo db op gid hb hlt
      (hops op (List.mem_cons_self op rest)) hi
    exact ih (applyOp db op) gid hstep.1 hstep.2.1
      (fun o ho => hops o (List.mem_cons_of_mem op ho)) hstep.2.2

/-- **C2 counterexample** — the inactive state is NOT terminal: create a
group, soft-delete it (it is now inactive), then update it with
`activo: true` — the update schema accepts the field and the repository
applies it, so the group is active again. -/
theorem c2_contraejemplo :
    ((run DB.empty [.crear dtoUy 1, .eliminar 1 1]).findGrupo 1).map
      (fun g => g.activo) = some false ∧
    ((run DB.empty [.crear dtoUy 1, .eliminar 1 1,
        .actualizar 1 { activo := some true } 1]).findGrupo 1).map
      (fun g => g.activo) = some true := by decide

/-- **C2 (amended)** — inactivity is preserved by every operation of the
slice EXCEPT an update whose DTO carries `activo: true` (which
reactivates the group): for every state whose group ids are below the
autoincrement counter, a tracked inactive id stays inactive under any
sequence of operations none of which submits `activo: true`. -/
theorem c2_inactivo_sin_reactivar (db : DB) (gid : Nat) (ops : List Op)
    (hb : ∀ g ∈ db.grupos, g.id < db.nextId)
    (hlt : gid < db.nextId)
    (hops : ∀ op ∈ ops, op.noReactiva)
    (hi : inactivoEn db gid = true) :
    inactivoEn (run db ops) gid = true :=
  (inactivoEn_iff _ _).mpr
    (run_preserva_inactivo ops db gid hb hlt hops ((inactivoEn_iff _ _).mp hi))

/-- Witness for C2 (amended): deleting again, listing, and renaming the
already-inactive group leaves it inactive. -/
theorem c2_witness :
    inactivoEn (run dbUyInactivo
      [.eliminar 1 1, .listar { page := 1, limit := 10 } 1,
       .actualizar 1 { nombre := some "Grupo Renombrado" } 1,
       .obtenerPorId 1 1]) 1 = true :=
  c2_inactivo_sin_reactivar dbUyInactivo 1 _ (by decide) (by decide)
    (by decide) (by decide)

/-- Inserting into the descending sort is a permutation of consing. -/
theorem perm_insertFechaDesc (g : Grupo) (l : List Grupo) :
    List.Perm (GruposRepository.insertFechaDesc g l) (g :: l) := by
  induction l with
  | nil => exact List.Perm.refl _
  | cons h t ih =>
    simp only [GruposRepository.insertFechaDesc]
    by_cases hc : h.fechaCreacion < g.fechaCreacion
    · rw [if_pos hc]
    · rw [if_neg hc]
      exact (List.Perm.cons h ih).trans (List.Perm.swap g h t)

/-- The descending sort permutes its input. -/
theorem perm_sortFechaDesc (l : List Grupo) :
    List.Perm (GruposRepository.sortFechaDesc l) l := by
  induction l with
  | nil => exact List.Perm.refl _
  | cons h t ih =>
    exact (perm_insertFechaDesc h (GruposRepository.sortFechaDesc t)).trans
      (List.Perm.cons h ih)

/-- Membership after insertion. -/
theorem mem_insertFechaDesc (g x : Grupo) (l : List Grupo) :
    x ∈ GruposRepository.insertFechaDesc g l ↔ x = g ∨ x ∈ l := by
  rw [(perm_insertFechaDesc g l).mem_iff, List.mem_cons]

/-- Inserting keeps the creation-time-descending pairwise order. -/
theorem pairwise_insertFechaDesc (g : Grupo) (l : List Grupo)
    (hl : List.Pairwise (fun a b => b.fechaCreacion ≤ a.fechaCreacion) l) :
    List.Pairwise (fun a b => b.fechaCreacion ≤ a.fechaCreacion)
      (GruposRepository.insertFechaDesc g l) := by
  induction l with
  | nil => simp [GruposRepository.insertFechaDesc]
  | cons h t ih =>
    rcases List.pairwise_cons.mp hl with ⟨hh, ht⟩
    simp only [GruposRepository.insertFechaDesc]
    by_cases hc : h.fechaCreacion < g.fechaCreacion
    · rw [if_pos hc]
      refine List.pairwise_cons.mpr ⟨?_, hl⟩
      intro b hb
      rcases List.mem_cons.mp hb with rfl | hbt
      · omega
      · have := hh b hbt
        omega
    · rw [if_neg hc]
      refine List.pairwise_cons.mpr ⟨?_, ih ht⟩
      intro b hb
      rcases (mem_insertFechaDesc g b t).mp hb with rfl | hbt
      · omega
      · exact hh b hbt

/-- The descending sort is sorted by creation time descending. -/
theorem pairwise_sortFechaDesc (l : List Grupo) :
    List.Pairwise (fun a b => b.fechaCreacion ≤ a.fechaCreacion)
      (GruposRepository.sortFechaDesc l) := by
  induction l with
  | nil => simp [GruposRepository.sortFechaDesc]
  | cons h t ih => exact pairwise_insertFechaDesc h _ ih

/-- `(total + limit - 1) / limit` is the ceiling of `total / limit`:
it is the least number of pages covering `total` rows. -/
theorem ceil_div_spec (total limit : Nat) (hl : 1 ≤ limit) :
    total ≤ ((total + limit - 1) / limit) * limit ∧
    ((total + limit - 1) / limit) * limit < total + limit := by
  obtain ⟨r, hr⟩ : ∃ r, (total + limit - 1) % limit = r := ⟨_, rfl⟩
  obtain ⟨k, hk⟩ : ∃ k, (total + limit - 1) / limit = k := ⟨_, rfl⟩
  have h2 : r < limit := by
    rw [← hr]
    exact Nat.mod_lt _ (by omega)
  have h1 : limit * k + r = total + limit - 1 := by
    rw [← hr, ← hk]
    exact Nat.div_add_mod _ _
  obtain ⟨p, hp⟩ : ∃ p, limit * k = p := ⟨_, rfl⟩
  rw [hk, Nat.mul_comm, hp]
  rw [hp] at h1
  clear hp hk hr
  omega

/-- **C8** — `findMany` returns at most `limit` rows, namely the slice of
the creation-time-descending ordering of the matching rows that skips the
first `(page-1)*limit` of them; `total` counts all matching rows (the
ordered fetch is a permutation of the count query's row set) and
`totalPages` is the ceiling of `total/limit` (characterised by the two
multiplicative bounds); concretely, `limit = 2` with 5 matching rows gives
`totalPages = 3` and page 3 holds exactly 1 row, and zero matching rows
give `total = 0` and `totalPages = 0`. -/
theorem c8_findMany_paginacion (db : DB) (q : ListGruposQuery)
    (hp : 1 ≤ q.page) (hl : 1 ≤ q.limit) (hl2 : q.limit ≤ 100) :
    (GruposRepository.findMany db q).data.length ≤ q.limit ∧
    (GruposRepository.findMany db q).pagination.page = q.page ∧
    (GruposRepository.findMany db q).pagination.limit = q.limit ∧
    (GruposRepository.findMany db q).pagination.total =
      (db.grupos.filter (GruposRepository.matchesWhere q)).length ∧
    List.Perm
      (GruposRepository.sortFechaDesc (db.grupos.filter (GruposRepository.matchesWhere q)))
      (db.grupos.filter (GruposRepository.matchesWhere q)) ∧
    (∀ i, i < (GruposRepository.findMany db q).data.length →
      (GruposRepository.findMany db q).data.get? i =
        (GruposRepository.sortFechaDesc
          (db.grupos.filter (GruposRepository.matchesWhere q))).get?
          ((q.page - 1) * q.limit + i)) ∧
    List.Pairwise (fun a b => b.fechaCreacion ≤ a.fechaCreacion)
      (GruposRepository.findMany db q).data ∧
    (GruposRepository.findMany db q).pagination.total ≤
      (GruposRepository.findMany db q).pagination.totalPages * q.limit ∧
    (GruposRepository.findMany db q).pagination.totalPages * q.limit <
      (GruposRepository.findMany db q).pagination.total + q.limit ∧
    ((GruposRepository.findMany db q).pagination.total = 0 →
      (GruposRepository.findMany db q).pagination.totalPages = 0) ∧
    (GruposRepository.findMany dbCinco { page := 3, limit := 2 }).pagination.totalPages = 3 ∧
    (GruposRepository.findMany dbCinco { page := 3, limit := 2 }).pagination.total = 5 ∧
    (GruposRepository.findMany dbCinco { page := 3, limit := 2 }).data.length = 1 ∧
    (GruposRepository.findMany DB.empty
      { page := 1, limit := 10, search := some "NoSuchGroupXYZ" }).pagination.total = 0 ∧
    (GruposRepository.findMany DB.empty
      { page := 1, limit := 10, search := some "NoSuchGroupXYZ" }).pagination.totalPages = 0 := by
  have hdata : (GruposRepository.findMany db q).data =
      ((GruposRepository.sortFechaDesc
          (db.grupos.filter (GruposRepository.matchesWhere q))).drop
        ((q.page - 1) * q.limit)).take q.limit := rfl
  have htp : (GruposRepository.findMany db q).pagination.totalPages =
      ((db.grupos.filter (GruposRepository.matchesWhere q)).length + q.limit - 1) /
        q.limit := rfl
  have htot : (GruposRepository.findMany db q).pagination.total =
      (db.grupos.filter (GruposRepository.matchesWhere q)).length := rfl
  refine ⟨?_, rfl, rfl, rfl, perm_sortFechaDesc _, ?_, ?_, ?_, ?_, ?_,
    by decide, by decide, by decide, by decide, by decide⟩
  · rw [hdata]
    exact List.length_take_le _ _
  · intro i hi
    have hilim : i < q.limit := by
      rw [hdata] at hi
      exact lt_of_lt_of_le hi (List.length_take_le _ _)
    rw [hdata, List.get?_take hilim, List.get?_drop]
  · rw [hdata]
    exact (pairwise_sortFechaDesc _).sublist
      ((List.take_sublist _ _).trans (List.drop_sublist _ _))
  · rw [htot, htp]
    exact (ceil_div_spec _ q.limit hl).1
  · rw [htot, htp]
    exact (ceil_div_spec _ q.limit hl).2
  · intro h0
    rw [htot] at h0
    rw [htp, h0]
    exact Nat.div_eq_of_lt (by omega)

/-- Witness for C8 at `dbCinco`, page 3, limit 2: at most 2 rows come
back, and the page count is 3. -/
theorem c8_witness :
    (GruposRepository.findMany dbCinco { page := 3, limit := 2 }).data.length ≤ 2 ∧
    (GruposRepository.findMany dbCinco { page := 3, limit := 2 }).pagination.totalPages = 3 :=
  ⟨(c8_findMany_paginacion dbCinco { page := 3, limit := 2 } (by decide) (by decide)
      (by decide)).1,
   by decide⟩

end KontaFlow
